import Mathlib

/-!
Verification of the UCMS frontend (university course-management SPA):
a shallow embedding of its API client interceptors, zod form schemas,
list-view filters, delete handlers and form submit handlers, with
theorems settling the specification's claims about them.
-/

namespace UCMS

/-! ## String helpers (JS semantics)

`a.toLowerCase().includes(b.toLowerCase())` is embedded as a
case-insensitive substring test over the character lists.  ASCII
lowercasing (`Char.toLower`) agrees with JS `toLowerCase` on the
ASCII data this application handles.
-/

/-- Bool-valued test that the first list starts the second one. -/
def leadsWith : List Char → List Char → Bool
  | [], _ => true
  | _ :: _, [] => false
  | a :: as, b :: bs => a == b && leadsWith as bs

/-- JS `haystack.includes(needle)` on character lists: the needle occurs
as a contiguous run somewhere in the haystack. -/
def occursWithin : List Char → List Char → Bool
  | n, [] => n.isEmpty
  | n, c :: t => leadsWith n (c :: t) || occursWithin n t

/-- `s.toLowerCase()` viewed as a character list. -/
def lowerList (s : String) : List Char := s.data.map Char.toLower

/-- `field.toLowerCase().includes(term.toLowerCase())`. -/
def containsIgnoreCase (field term : String) : Bool :=
  occursWithin (lowerList term) (lowerList field)

/-- Digit character, as tested by the `[0-9]` regex class. -/
def isDigitCh (c : Char) : Bool := '0' ≤ c && c ≤ '9'

/-- Uppercase letter, as tested by the `[A-Z]` regex class. -/
def isUpperLetter (c : Char) : Bool := 'A' ≤ c && c ≤ 'Z'

/-- The JS regex `^[A-Z]+[0-9]+$` from `courseSchema`: one or more
uppercase letters followed by one or more digits, nothing else.
Because the two character classes are disjoint the greedy split at the
end of the leading uppercase run is the only possible decomposition. -/
def codeRegexOk (s : String) : Bool :=
  let letters := s.data.takeWhile isUpperLetter
  let rest := s.data.dropWhile isUpperLetter
  !letters.isEmpty && !rest.isEmpty && rest.all isDigitCh

/-- JS `parseInt` restricted to the base-10 shapes this app feeds it
(select-box values such as `"17"`): optional sign then a leading digit
run, ignoring what follows; `none` stands for `NaN` (no digits). -/
def digitsVal (cs : List Char) : Option Nat :=
  let ds := cs.takeWhile isDigitCh
  if ds.isEmpty then none
  else some (ds.foldl (fun a c => a * 10 + (c.toNat - '0'.toNat)) 0)

def parseIntJS (s : String) : Option Int :=
  match s.data.dropWhile (fun c => c == ' ') with
  | '-' :: rest => (digitsVal rest).map (fun n => -(n : Int))
  | '+' :: rest => (digitsVal rest).map (fun n => (n : Int))
  | cs => (digitsVal cs).map (fun n => (n : Int))

/-! ## Domain model (src/types)

`Student` keeps its three text fields as `Option String`: the Students
list view reads them through JS optional chaining (`student.name?.…`),
i.e. the code itself anticipates records where they are absent at run
time.  `Course`, `Registration` and `Result` are the typed read shapes
whose fields the views access unconditionally; `CourseR`,
`RegistrationR` and `ResultR` are their run-time counterparts with
possibly-absent text fields, used to study definedness of the filter
predicates.  `Registration` is flattened to the four text fields its
filter indexes (`student.name`, `student.studentNumber`,
`course.title`, `course.code`). -/

structure Student where
  id : Nat
  studentNumber : Option String
  name : Option String
  email : Option String
  role : String
deriving DecidableEq, Repr

structure Course where
  id : Nat
  title : String
  code : String
  credits : Int
  instructor : String
deriving DecidableEq, Repr

structure Registration where
  id : Nat
  studentName : String
  studentNumber : String
  courseTitle : String
  courseCode : String
  registrationDate : String
deriving DecidableEq, Repr

structure ResultRec where
  id : Nat
  studentNumber : String
  courseCode : String
  courseName : String
  grade : String
deriving DecidableEq, Repr

structure CourseR where
  id : Nat
  title : Option String
  code : Option String
  credits : Int
  instructor : Option String
deriving DecidableEq, Repr

structure RegistrationR where
  id : Nat
  studentName : Option String
  studentNumber : Option String
  courseTitle : Option String
  courseCode : Option String
deriving DecidableEq, Repr

structure ResultR where
  id : Nat
  studentNumber : Option String
  courseCode : Option String
  courseName : Option String
  grade : Option String
deriving DecidableEq, Repr

/-! ## API client interceptors (src/services/api.ts, constructor) -/

/-- The two persisted browser-storage slots the client touches:
`localStorage.getItem('token')` / `('user')`; `none` is an absent key. -/
structure LocalStorage where
  token : Option String
  user : Option String
deriving DecidableEq, Repr

/-- The parts of an outgoing axios request config the interceptor can
see: the `Authorization` header slot and everything else, which the
interceptor never touches. -/
structure RequestConfig where
  authorization : Option String
  otherHeaders : List (String × String)
  url : String
deriving DecidableEq, Repr

/-- Request interceptor (api.ts lines 17-26): reads the stored token;
`if (token)` is JS truthiness, so an absent key *and* a stored empty
string both skip the branch; otherwise it sets
`config.headers.Authorization = Bearer <token>` and returns the config
otherwise unchanged. -/
def requestInterceptor (store : LocalStorage) (cfg : RequestConfig) : RequestConfig :=
  match store.token with
  | some t =>
    if t = "" then cfg
    else { cfg with authorization := some ("Bearer " ++ t) }
  | none => cfg

/-- Mutable client-visible browser state: the storage plus
`window.location.href`. -/
structure ClientState where
  store : LocalStorage
  location : String
deriving DecidableEq, Repr

/-- Response error interceptor (api.ts lines 29-40): on
`error.response?.status === 401` it removes both storage keys and
navigates to `/login`; in every case it returns `Promise.reject(error)`,
reported here as the `Bool` component being `true` (caller observes a
rejection).  `status = none` stands for an error without a response
(network failure). -/
def responseErrorInterceptor (status : Option Nat) (st : ClientState) :
    ClientState × Bool :=
  if status = some 401 then
    (⟨⟨none, none⟩, "/login"⟩, true)
  else
    (st, true)

/-! ## zod schemas and submit gating

`react-hook-form` with a zod resolver invokes the wrapped submit
handler exactly when the schema accepts the values; a failed validation
never reaches the handler.  `submit… = none` below means the injected
callback was not invoked. -/

/-- Raw values of the course form. -/
structure CourseFormData where
  title : String
  code : String
  credits : Int
  instructor : String
deriving DecidableEq, Repr

/-- `courseSchema` (CourseForm, unnamed/part_002 lines 14-26):
title ≥ 3 chars, code ≥ 3 chars matching `^[A-Z]+[0-9]+$`,
credits between 1 and 6 inclusive, instructor ≥ 2 chars.  The trailing
`.transform` re-applies `Number` to the already-numeric credits and is
the identity here. -/
def validateCourse (d : CourseFormData) : Bool :=
  decide (3 ≤ d.title.length) &&
  decide (3 ≤ d.code.length) && codeRegexOk d.code &&
  decide (1 ≤ d.credits) && decide (d.credits ≤ 6) &&
  decide (2 ≤ d.instructor.length)

/-- Submission pipeline of the course form: the zod resolver gates the
handler, so the callback fires exactly on valid data. -/
def submitCourseForm (cb : CourseFormData → Bool) (d : CourseFormData) : Option Bool :=
  if validateCourse d then some (cb d) else none

/-- Raw values of the result form (all select boxes hold strings). -/
structure ResultFormValues where
  studentId : String
  courseId : String
  grade : String
deriving DecidableEq, Repr

/-- `resultSchema` (ResultForm.tsx lines 29-33): each field a
non-empty string. -/
def validateResultForm (v : ResultFormValues) : Bool :=
  decide (1 ≤ v.studentId.length) &&
  decide (1 ≤ v.courseId.length) &&
  decide (1 ≤ v.grade.length)

/-- External `Date` object, modelled by its observable ISO-8601
rendering (the calendar widget producing it is out of the spec's
scope). -/
structure DateJS where
  epochMillis : Int
  iso : String
deriving DecidableEq, Repr

def DateJS.toISOString (d : DateJS) : String := d.iso

/-- Raw values of the registration form. -/
structure RegFormValues where
  studentId : String
  courseId : String
  registrationDate : DateJS
deriving DecidableEq, Repr

/-- `registrationSchema` (RegistrationForm.tsx lines 19-25): the two
selects non-empty; the date refinement (`date instanceof Date`) always
holds for a `DateJS` value. -/
def validateRegForm (v : RegFormValues) : Bool :=
  decide (1 ≤ v.studentId.length) &&
  decide (1 ≤ v.courseId.length)

/-! ## List-view filter effects

Each view recomputes `filteredXs = xs.filter(pred)` from the loaded
collection and the search term.  The Students predicate guards every
field with `?.` and `|| false`; the other three access their fields
unconditionally. -/

/-- One guarded disjunct of the Students predicate:
`field?.toLowerCase().includes(term.toLowerCase()) || false`. -/
def optFieldMatches (term : String) (field : Option String) : Bool :=
  (field.map (fun v => containsIgnoreCase v term)).getD false

/-- Students filter predicate (unnamed/part_001 lines 44-52). -/
def studentMatches (term : String) (s : Student) : Bool :=
  optFieldMatches term s.name || optFieldMatches term s.email ||
  optFieldMatches term s.studentNumber

def filterStudents (term : String) (l : List Student) : List Student :=
  l.filter (studentMatches term)

/-- Courses filter predicate (unnamed/part_001 lines 299-306). -/
def courseMatches (term : String) (c : Course) : Bool :=
  containsIgnoreCase c.title term || containsIgnoreCase c.code term ||
  containsIgnoreCase c.instructor term

def filterCourses (term : String) (l : List Course) : List Course :=
  l.filter (courseMatches term)

/-- Registrations filter predicate (Registrations.tsx lines 26-34). -/
def registrationMatches (term : String) (r : Registration) : Bool :=
  containsIgnoreCase r.studentName term ||
  containsIgnoreCase r.studentNumber term ||
  containsIgnoreCase r.courseTitle term ||
  containsIgnoreCase r.courseCode term

def filterRegistrations (term : String) (l : List Registration) : List Registration :=
  l.filter (registrationMatches term)

/-- Results filter predicate (Results.tsx lines 52-60). -/
def resultMatches (term : String) (r : ResultRec) : Bool :=
  containsIgnoreCase r.studentNumber term ||
  containsIgnoreCase r.courseCode term ||
  containsIgnoreCase r.courseName term ||
  containsIgnoreCase r.grade term

def filterResults (term : String) (l : List ResultRec) : List ResultRec :=
  l.filter (resultMatches term)

/-! ### Run-time (partial) versions of the unguarded predicates

JS evaluation of `a || b`: if `a` throws the whole expression throws
(`none`); if `a` is true, `b` is never evaluated; otherwise the value
is `b`.  An unconditional `.toLowerCase()` on an absent field throws,
so each unguarded disjunct is `field.map …` — `none` when absent. -/

def jsOrElse (a b : Option Bool) : Option Bool :=
  match a with
  | none => none
  | some true => some true
  | some false => b

/-- Courses predicate on a run-time record: `course.title.toLowerCase()`
etc. with no guard; `none` means the predicate threw. -/
def courseMatchesR (term : String) (c : CourseR) : Option Bool :=
  jsOrElse (c.title.map (fun v => containsIgnoreCase v term))
    (jsOrElse (c.code.map (fun v => containsIgnoreCase v term))
      (c.instructor.map (fun v => containsIgnoreCase v term)))

/-- Registrations predicate on a run-time record. -/
def registrationMatchesR (term : String) (r : RegistrationR) : Option Bool :=
  jsOrElse (r.studentName.map (fun v => containsIgnoreCase v term))
    (jsOrElse (r.studentNumber.map (fun v => containsIgnoreCase v term))
      (jsOrElse (r.courseTitle.map (fun v => containsIgnoreCase v term))
        (r.courseCode.map (fun v => containsIgnoreCase v term))))

/-- Results predicate on a run-time record. -/
def resultMatchesR (term : String) (r : ResultR) : Option Bool :=
  jsOrElse (r.studentNumber.map (fun v => containsIgnoreCase v term))
    (jsOrElse (r.courseCode.map (fun v => containsIgnoreCase v term))
      (jsOrElse (r.courseName.map (fun v => containsIgnoreCase v term))
        (r.grade.map (fun v => containsIgnoreCase v term))))

/-! ## Toasts and form submit handlers -/

inductive Toast where
  | success
  | genericError
deriving DecidableEq, Repr

/-- Wire shape `{ studentId, courseId, registrationDate }` sent by the
registration form; the numbers come from `parseInt` on select values,
`none` standing for `NaN`. -/
structure RegRequestW where
  studentId : Option Int
  courseId : Option Int
  registrationDate : String
deriving DecidableEq, Repr

/-- Wire shape `{ studentId, courseId, grade }` sent by the result
form. -/
structure ResultRequestW where
  studentId : Option Int
  courseId : Option Int
  grade : String
deriving DecidableEq, Repr

/-- Observable outcome of one run of a form submit handler. -/
structure SubmitOutcome (W : Type) where
  payload : W
  closed : Bool
  wasReset : Bool
  toast : Toast
deriving DecidableEq, Repr

/-- `RegistrationForm.handleSubmit` (RegistrationForm.tsx lines
78-101): build the wire payload with `parseInt` on the two select
strings and `toISOString` on the date, call the injected `onSubmit`;
if it resolves, show the success toast, close the sheet and reset the
fields; if it rejects, show the generic error toast and leave the form
open.  `cbOk` is the callback's outcome on a given payload. -/
def regPayload (v : RegFormValues) : RegRequestW :=
  ⟨parseIntJS v.studentId, parseIntJS v.courseId, v.registrationDate.toISOString⟩

def regHandleSubmit (cbOk : RegRequestW → Bool) (v : RegFormValues) :
    SubmitOutcome RegRequestW :=
  if cbOk (regPayload v) then
    ⟨regPayload v, true, true, Toast.success⟩
  else
    ⟨regPayload v, false, false, Toast.genericError⟩

/-- `ResultForm.handleSubmit` (ResultForm.tsx lines 95-118): same
pattern with `{ studentId, courseId, grade }`. -/
def resultPayload (v : ResultFormValues) : ResultRequestW :=
  ⟨parseIntJS v.studentId, parseIntJS v.courseId, v.grade⟩

def resultHandleSubmit (cbOk : ResultRequestW → Bool) (v : ResultFormValues) :
    SubmitOutcome ResultRequestW :=
  if cbOk (resultPayload v) then
    ⟨resultPayload v, true, true, Toast.success⟩
  else
    ⟨resultPayload v, false, false, Toast.genericError⟩

/-- The zod resolver gates `handleSubmit`: the handler (and hence the
callback) runs only on schema-valid values. -/
def submitRegForm (cbOk : RegRequestW → Bool) (v : RegFormValues) :
    Option (SubmitOutcome RegRequestW) :=
  if validateRegForm v then some (regHandleSubmit cbOk v) else none

def submitResultForm (cbOk : ResultRequestW → Bool) (v : ResultFormValues) :
    Option (SubmitOutcome ResultRequestW) :=
  if validateResultForm v then some (resultHandleSubmit cbOk v) else none

/-! ## Delete handlers -/

/-- `handleDeleteStudent` (unnamed/part_001 lines 84-101): a blocking
`window.confirm`; declined → nothing happens.  Confirmed and the API
call resolves → success toast and
`setStudents(students.filter(s => s.id !== student.id))`.
Confirmed but the call rejects → error toast, state untouched.
Fields: new list, whether a delete request was made, toast shown. -/
def handleDeleteStudent (confirmed : Bool) (apiOk : Bool)
    (students : List Student) (target : Student) :
    List Student × Bool × Option Toast :=
  if !confirmed then (students, false, none)
  else if apiOk then
    (students.filter (fun s => decide (s.id ≠ target.id)), true, some Toast.success)
  else (students, true, some Toast.genericError)

/-- Outcome of the three refetch-style delete handlers. -/
structure RefetchDeleteOutcome where
  requestMade : Bool
  refetchTriggered : Bool
  toast : Option Toast
deriving DecidableEq, Repr

/-- `handleDeleteCourse` (unnamed/part_001 lines 333-350): confirm,
delete, success toast, then `loadCourses()` refetches the whole
collection. -/
def handleDeleteCourse (confirmed : Bool) (apiOk : Bool) : RefetchDeleteOutcome :=
  if !confirmed then ⟨false, false, none⟩
  else if apiOk then ⟨true, true, some Toast.success⟩
  else ⟨true, false, some Toast.genericError⟩

/-- `handleDeleteRegistration` (Registrations.tsx lines 60-77): same
confirm / delete / `loadRegistrations()` pattern. -/
def handleDeleteRegistration (confirmed : Bool) (apiOk : Bool) : RefetchDeleteOutcome :=
  if !confirmed then ⟨false, false, none⟩
  else if apiOk then ⟨true, true, some Toast.success⟩
  else ⟨true, false, some Toast.genericError⟩

/-- `handleDeleteResult` (Results.tsx lines 87-104): same confirm /
delete / `loadResults()` pattern. -/
def handleDeleteResult (confirmed : Bool) (apiOk : Bool) : RefetchDeleteOutcome :=
  if !confirmed then ⟨false, false, none⟩
  else if apiOk then ⟨true, true, some Toast.success⟩
  else ⟨true, false, some Toast.genericError⟩

/-! ## Form data loading (fan-out/fan-in join) -/

/-- Component state after `loadData` settles. -/
structure FanInOutcome where
  students : List Student
  courses : List Course
  isLoadingData : Bool
  errorToasts : Nat
deriving DecidableEq, Repr

/-- `loadData` of both forms (RegistrationForm.tsx lines 58-76,
ResultForm.tsx lines 75-93):
`Promise.all([getStudents(), getCourses()])` — both resolve → both
lists installed, no toast; either rejects → the join rejects, the
`catch` shows exactly one generic toast, and neither setter runs, so
the state keeps its prior lists (`s0`, `c0`).  The `finally` clears
`isLoadingData` on every path, after the join settles, which is when
the select boxes render. -/
def loadDataJoin (sres : Except Unit (List Student))
    (cres : Except Unit (List Course))
    (s0 : List Student) (c0 : List Course) : FanInOutcome :=
  match sres, cres with
  | Except.ok sl, Except.ok cl => ⟨sl, cl, false, 0⟩
  | _, _ => ⟨s0, c0, false, 1⟩

/-! ## Result-form edit resolution -/

/-- The open-for-edit effect of `ResultForm` (ResultForm.tsx lines
60-73): after `loadData()` resolves it looks the edited result's
`studentNumber` up among the students and its `courseCode` among the
courses (the lists the closure sees), calling `form.setValue` only for
a found match; a missed lookup does nothing — no error is surfaced.
Returns the form values after the effect and whether any error was
surfaced by the lookup. -/
def resultEditResolve (result : ResultRec) (students : List Student)
    (courses : List Course) (v : ResultFormValues) :
    ResultFormValues × Bool :=
  let v1 :=
    match students.find? (fun s => decide (s.studentNumber = some result.studentNumber)) with
    | some s => { v with studentId := toString s.id }
    | none => v
  let v2 :=
    match courses.find? (fun c => decide (c.code = result.courseCode)) with
    | some c => { v1 with courseId := toString c.id }
    | none => v1
  (v2, false)

/-! ## Sample records used to instantiate theorems -/

def aliceS : Student := ⟨1, some "S001", some "Alice", some "alice@uni.edu", "student"⟩

def bobS : Student := ⟨2, some "S002", some "Bob", some "bob@uni.edu", "student"⟩

def cs101 : Course := ⟨10, "Intro to CS", "CS101", 3, "Dr. Smith"⟩

/-! ## Helper lemmas -/

theorem occursWithin_nil_left (h : List Char) : occursWithin [] h = true := by
  cases h with
  | nil => rfl
  | cons c t => simp [occursWithin, leadsWith]

theorem containsIgnoreCase_empty_term (v : String) :
    containsIgnoreCase v "" = true := by
  have h : lowerList "" = [] := rfl
  unfold containsIgnoreCase
  rw [h]
  exact occursWithin_nil_left _

theorem filter_eq_nil_of_countP_zero {α : Type} (p : α → Bool) (l : List α)
    (h : l.countP p = 0) : l.filter p = [] := by
  rw [List.filter_eq_nil_iff]
  intro a ha
  have hz := List.countP_eq_zero.mp h a ha
  simpa using hz

theorem filter_eq_singleton_of_countP_one {α : Type} (p : α → Bool) :
    ∀ (l : List α) (r : α), l.countP p = 1 → r ∈ l → p r = true →
      l.filter p = [r] := by
  intro l
  induction l with
  | nil => intro r _ h2 _; cases h2
  | cons a t ih =>
    intro r h1 h2 h3
    by_cases pa : p a = true
    · rw [List.filter_cons_of_pos pa]
      have hcnt := List.countP_cons_of_pos (p := p) t pa
      have hzero : t.countP p = 0 := by omega
      have hnil : t.filter p = [] := filter_eq_nil_of_countP_zero p t hzero
      have hra : r = a := by
        rcases List.mem_cons.mp h2 with h | h
        · exact h
        · exfalso
          have := List.countP_eq_zero.mp hzero r h
          simp [h3] at this
      rw [hnil, hra]
    · have pane : p a = false := by
        cases hpa : p a with
        | true => exact absurd hpa pa
        | false => rfl
      have hstep : (a :: t).filter p = t.filter p := by
        simp [List.filter_cons, pane]
      rw [hstep]
      have hcnt : (a :: t).countP p = t.countP p := by
        simp [List.countP_cons, pane]
      have hone : t.countP p = 1 := by omega
      have hrt : r ∈ t := by
        rcases List.mem_cons.mp h2 with h | h
        · subst h; exact absurd h3 pa
        · exact h
      exact ih r hone hrt h3

theorem studentMatches_empty_of_present (s : Student)
    (h : s.name.isSome ∨ s.email.isSome ∨ s.studentNumber.isSome) :
    studentMatches "" s = true := by
  unfold studentMatches optFieldMatches
  rcases h with h | h | h <;>
    rcases Option.isSome_iff_exists.mp h with ⟨v, hv⟩ <;>
    simp [hv, containsIgnoreCase_empty_term]

theorem courseMatches_empty (c : Course) : courseMatches "" c = true := by
  unfold courseMatches
  simp [containsIgnoreCase_empty_term]

theorem registrationMatches_empty (r : Registration) :
    registrationMatches "" r = true := by
  unfold registrationMatches
  simp [containsIgnoreCase_empty_term]

theorem resultMatches_empty (r : ResultRec) : resultMatches "" r = true := by
  unfold resultMatches
  simp [containsIgnoreCase_empty_term]

/-! ## Claim theorems -/

/-- C1: a response with HTTP status 401 makes the client clear the
stored bearer token and stored user record, force navigation to
`/login`, and still reject the operation so the caller observes the
failure; a response with any other status leaves the stored token,
user record and location unchanged (and the error still rejects). -/
theorem c1_response_interceptor (st : ClientState) (status : Option Nat) :
    responseErrorInterceptor (some 401) st =
      (⟨⟨none, none⟩, "/login"⟩, true) ∧
    (status ≠ some 401 → responseErrorInterceptor status st = (st, true)) := by
  constructor
  · rfl
  · intro h
    unfold responseErrorInterceptor
    rw [if_neg h]

/-- Witness for C1 at a concrete logged-in state and a 404 response. -/
theorem c1_witness :
    responseErrorInterceptor (some 401) ⟨⟨some "tok", some "u"⟩, "/home"⟩ =
      (⟨⟨none, none⟩, "/login"⟩, true) ∧
    responseErrorInterceptor (some 404) ⟨⟨some "tok", some "u"⟩, "/home"⟩ =
      (⟨⟨some "tok", some "u"⟩, "/home"⟩, true) :=
  ⟨(c1_response_interceptor ⟨⟨some "tok", some "u"⟩, "/home"⟩ (some 404)).1,
   (c1_response_interceptor ⟨⟨some "tok", some "u"⟩, "/home"⟩ (some 404)).2
     (by decide)⟩

/-- C7 counterexample: with the empty string stored under `token` a
bearer token *is* present in local storage, yet `if (token)` is falsy
and no `Authorization` header is attached — refuting the claim that
every stored token is attached as `Bearer <token>`. -/
theorem c7_counterexample :
    requestInterceptor ⟨some "", none⟩ ⟨none, [], "/students"⟩ =
      ⟨none, [], "/students"⟩ ∧
    (requestInterceptor ⟨some "", none⟩ ⟨none, [], "/students"⟩).authorization ≠
      some ("Bearer " ++ "") := by
  constructor
  · rfl
  · intro h
    simp [requestInterceptor] at h

/-- C7 (amended): if a *non-empty* bearer token is stored, every
outgoing request carries `Authorization: Bearer <token>` with exactly
that token and is otherwise unchanged; if no token is stored, or the
stored token is the empty string (JS falsy), the request passes through
unchanged, with no `Authorization` header added. -/
theorem c7_request_interceptor (store : LocalStorage) (cfg : RequestConfig) :
    (∀ t, store.token = some t → t ≠ "" →
      requestInterceptor store cfg =
        { cfg with authorization := some ("Bearer " ++ t) }) ∧
    (store.token = none → requestInterceptor store cfg = cfg) ∧
    (store.token = some "" → requestInterceptor store cfg = cfg) := by
  refine ⟨?_, ?_, ?_⟩
  · intro t ht hne
    unfold requestInterceptor
    rw [ht]
    simp [hne]
  · intro ht
    unfold requestInterceptor
    rw [ht]
  · intro ht
    unfold requestInterceptor
    rw [ht]
    simp

/-- Witness for C7 at a concrete stored token and a concrete request. -/
theorem c7_witness :
    requestInterceptor ⟨some "tok", none⟩ ⟨none, [("Accept", "json")], "/students"⟩ =
      ⟨some ("Bearer " ++ "tok"), [("Accept", "json")], "/students"⟩ ∧
    requestInterceptor ⟨none, none⟩ ⟨none, [("Accept", "json")], "/students"⟩ =
      ⟨none, [("Accept", "json")], "/students"⟩ :=
  ⟨(c7_request_interceptor ⟨some "tok", none⟩
      ⟨none, [("Accept", "json")], "/students"⟩).1 "tok" rfl (by decide),
   (c7_request_interceptor ⟨none, none⟩
      ⟨none, [("Accept", "json")], "/students"⟩).2.1 rfl⟩

/-- C2 counterexample: the form data (title "AB", code "CS101",
credits 3, instructor "Dr") has a code matching `^[A-Z]+[0-9]+$` of
length ≥ 3 and credits in [1,6], yet the schema rejects it (title too
short) and the callback is not invoked — so acceptance is *not*
equivalent to the code/credits conditions alone. -/
theorem c2_counterexample :
    codeRegexOk "CS101" = true ∧ 3 ≤ "CS101".length ∧
    (1 : Int) ≤ 3 ∧ (3 : Int) ≤ 6 ∧
    validateCourse ⟨"AB", "CS101", 3, "Dr"⟩ = false ∧
    submitCourseForm (fun _ => true) ⟨"AB", "CS101", 3, "Dr"⟩ = none := by
  refine ⟨by decide, by decide, by decide, by decide, by decide, ?_⟩
  unfold submitCourseForm
  rw [show validateCourse ⟨"AB", "CS101", 3, "Dr"⟩ = false from by decide]
  rfl

/-- C2 (amended): a course submission is accepted iff the title has at
least 3 characters, the code has at least 3 characters and matches
`^[A-Z]+[0-9]+$`, credits is between 1 and 6 inclusive, and the
instructor name has at least 2 characters; a rejected submission never
invokes the submit callback and an accepted one invokes it exactly
once.  In particular "cs101" is rejected, "CS101" is accepted and
credits = 7 is rejected (see the witness). -/
theorem c2_course_schema (d : CourseFormData) (cb : CourseFormData → Bool) :
    (validateCourse d = true ↔
      (3 ≤ d.title.length ∧ 3 ≤ d.code.length ∧ codeRegexOk d.code = true ∧
       1 ≤ d.credits ∧ d.credits ≤ 6 ∧ 2 ≤ d.instructor.length)) ∧
    (validateCourse d = false → submitCourseForm cb d = none) ∧
    (validateCourse d = true → submitCourseForm cb d = some (cb d)) := by
  refine ⟨?_, ?_, ?_⟩
  · unfold validateCourse
    simp only [Bool.and_eq_true, decide_eq_true_eq]
    tauto
  · intro h
    unfold submitCourseForm
    rw [h]
    rfl
  · intro h
    unfold submitCourseForm
    rw [h]
    rfl

/-- Witness for C2: the spec's own examples.  "CS101" with valid
companion fields is accepted, "cs101" is rejected without invoking the
callback, credits = 7 is rejected. -/
theorem c2_witness :
    validateCourse ⟨"Intro to CS", "CS101", 3, "Dr. Smith"⟩ = true ∧
    submitCourseForm (fun _ => true) ⟨"Intro to CS", "cs101", 3, "Dr. Smith"⟩ =
      none ∧
    validateCourse ⟨"Intro to CS", "CS101", 7, "Dr. Smith"⟩ = false :=
  ⟨(c2_course_schema ⟨"Intro to CS", "CS101", 3, "Dr. Smith"⟩
      (fun _ => true)).1.mpr (by decide),
   (c2_course_schema ⟨"Intro to CS", "cs101", 3, "Dr. Smith"⟩
      (fun _ => true)).2.1 (by decide),
   by decide⟩

/-- C3 counterexample: in the Students view a loaded record whose
name, email and studentNumber are all absent is dropped even by the
empty search term (`field?.…toLowerCase().includes("") || false`
evaluates to `false` for every absent field), so the empty term does
*not* yield the full collection. -/
theorem c3_counterexample :
    filterStudents "" [⟨1, none, none, none, "student"⟩] = [] ∧
    ([] : List Student) ≠ [⟨1, none, none, none, "student"⟩] := by
  constructor
  · rfl
  · intro h
    cases h

/-- C3 (amended): every view's filter is a case-insensitive substring
match over its fixed indexed fields; a term matching exactly one record
yields exactly that record; a term matching none yields the empty list;
the empty term yields the full collection — unconditionally for
Courses, Registrations and Results, and for Students provided each
record has at least one of its indexed fields present (a student whose
name, email and studentNumber are all absent is dropped even by the
empty term). -/
theorem c3_filter_properties :
    (∀ (l : List Student) (term : String),
      (l.countP (studentMatches term) = 1 →
        ∀ s ∈ l, studentMatches term s = true → filterStudents term l = [s]) ∧
      (l.countP (studentMatches term) = 0 → filterStudents term l = []) ∧
      ((∀ s ∈ l, s.name.isSome ∨ s.email.isSome ∨ s.studentNumber.isSome) →
        filterStudents "" l = l)) ∧
    (∀ (l : List Course) (term : String),
      (l.countP (courseMatches term) = 1 →
        ∀ c ∈ l, courseMatches term c = true → filterCourses term l = [c]) ∧
      (l.countP (courseMatches term) = 0 → filterCourses term l = []) ∧
      filterCourses "" l = l) ∧
    (∀ (l : List Registration) (term : String),
      (l.countP (registrationMatches term) = 1 →
        ∀ r ∈ l, registrationMatches term r = true →
          filterRegistrations term l = [r]) ∧
      (l.countP (registrationMatches term) = 0 →
        filterRegistrations term l = []) ∧
      filterRegistrations "" l = l) ∧
    (∀ (l : List ResultRec) (term : String),
      (l.countP (resultMatches term) = 1 →
        ∀ r ∈ l, resultMatches term r = true → filterResults term l = [r]) ∧
      (l.countP (resultMatches term) = 0 → filterResults term l = []) ∧
      filterResults "" l = l) := by
  refine ⟨?_, ?_, ?_, ?_⟩
  · intro l term
    refine ⟨?_, ?_, ?_⟩
    · intro h1 s hs hp
      exact filter_eq_singleton_of_countP_one (studentMatches term) l s h1 hs hp
    · intro h
      exact filter_eq_nil_of_countP_zero (studentMatches term) l h
    · intro h
      unfold filterStudents
      rw [List.filter_eq_self]
      intro s hs
      exact studentMatches_empty_of_present s (h s hs)
  · intro l term
    refine ⟨?_, ?_, ?_⟩
    · intro h1 c hc hp
      exact filter_eq_singleton_of_countP_one (courseMatches term) l c h1 hc hp
    · intro h
      exact filter_eq_nil_of_countP_zero (courseMatches term) l h
    · unfold filterCourses
      rw [List.filter_eq_self]
      intro c _
      exact courseMatches_empty c
  · intro l term
    refine ⟨?_, ?_, ?_⟩
    · intro h1 r hr hp
      exact filter_eq_singleton_of_countP_one (registrationMatches term) l r h1 hr hp
    · intro h
      exact filter_eq_nil_of_countP_zero (registrationMatches term) l h
    · unfold filterRegistrations
      rw [List.filter_eq_self]
      intro r _
      exact registrationMatches_empty r
  · intro l term
    refine ⟨?_, ?_, ?_⟩
    · intro h1 r hr hp
      exact filter_eq_singleton_of_countP_one (resultMatches term) l r h1 hr hp
    · intro h
      exact filter_eq_nil_of_countP_zero (resultMatches term) l h
    · unfold filterResults
      rw [List.filter_eq_self]
      intro r _
      exact resultMatches_empty r

/-- Witness for C3: searching "alice" in a two-student collection
returns exactly Alice; searching "zzz" returns nothing; the empty term
returns the full collection (all fields present); the Courses view
behaves the same on a singleton collection. -/
theorem c3_witness :
    filterStudents "alice" [aliceS, bobS] = [aliceS] ∧
    filterStudents "zzz" [aliceS, bobS] = [] ∧
    filterStudents "" [aliceS, bobS] = [aliceS, bobS] ∧
    filterCourses "" [cs101] = [cs101] :=
  ⟨(c3_filter_properties.1 [aliceS, bobS] "alice").1 (by decide) aliceS
      (by decide) (by decide),
   (c3_filter_properties.1 [aliceS, bobS] "zzz").2.1 (by decide),
   (c3_filter_properties.1 [aliceS, bobS] "").2.2 (by decide),
   (c3_filter_properties.2.1 [cs101] "").2.2⟩

/-- C9: for every view, every collection and every term the filtered
list is an order-preserving subsequence (`List.Sublist`) of the loaded
collection — so each filtered record occurs in it, nothing is
duplicated or reordered, and (the embedding being a pure function of
the collection) the collection itself is untouched. -/
theorem c9_filter_sublist (term : String) :
    (∀ l : List Student, List.Sublist (filterStudents term l) l) ∧
    (∀ l : List Course, List.Sublist (filterCourses term l) l) ∧
    (∀ l : List Registration, List.Sublist (filterRegistrations term l) l) ∧
    (∀ l : List ResultRec, List.Sublist (filterResults term l) l) :=
  ⟨fun l => List.filter_sublist l, fun l => List.filter_sublist l,
   fun l => List.filter_sublist l, fun l => List.filter_sublist l⟩

/-- C10: the Students predicate is total and treats absent fields as
non-matching — a student with all three indexed fields absent matches
no term, and an absent name simply drops that disjunct; the Courses,
Registrations and Results predicates access their fields
unconditionally, so each is undefined (throws) on some record with an
absent indexed field. -/
theorem c10_absent_fields :
    (∀ (term : String) (s : Student), s.name = none → s.email = none →
      s.studentNumber = none → studentMatches term s = false) ∧
    (∀ (term : String) (s : Student), s.name = none →
      studentMatches term s =
        (optFieldMatches term s.email || optFieldMatches term s.studentNumber)) ∧
    (∃ (c : CourseR) (term : String), courseMatchesR term c = none) ∧
    (∃ (r : RegistrationR) (term : String), registrationMatchesR term r = none) ∧
    (∃ (r : ResultR) (term : String), resultMatchesR term r = none) := by
  refine ⟨?_, ?_, ?_, ?_, ?_⟩
  · intro term s h1 h2 h3
    unfold studentMatches optFieldMatches
    rw [h1, h2, h3]
    rfl
  · intro term s h
    unfold studentMatches optFieldMatches
    rw [h]
    simp
  · exact ⟨⟨7, none, some "CS101", 3, some "Dr. Smith"⟩, "a", rfl⟩
  · exact ⟨⟨8, none, some "S001", some "Intro", some "CS101"⟩, "a", rfl⟩
  · exact ⟨⟨9, none, some "CS101", some "Intro", some "A"⟩, "a", rfl⟩

/-- Witness for C10 at a concrete all-absent student and a concrete
name-absent student. -/
theorem c10_witness :
    studentMatches "s0" ⟨3, none, none, none, "student"⟩ = false ∧
    studentMatches "s0" ⟨4, some "S004", none, some "d@u.edu", "student"⟩ =
      (optFieldMatches "s0" (some "d@u.edu") ||
        optFieldMatches "s0" (some "S004")) :=
  ⟨c10_absent_fields.1 "s0" ⟨3, none, none, none, "student"⟩ rfl rfl rfl,
   c10_absent_fields.2.1 "s0" ⟨4, some "S004", none, some "d@u.edu", "student"⟩
     rfl⟩

/-- C4 counterexample: editing the result for studentNumber "S001"
when the loaded student list has no match — the open-for-edit effect
surfaces *no* error (the error flag is `false`, refuting the claimed
explicit "cannot resolve student" error) and silently leaves the
student select empty. -/
theorem c4_counterexample :
    resultEditResolve ⟨5, "S001", "CS101", "Intro", "A"⟩ [] [] ⟨"", "", "A"⟩ =
      (⟨"", "", "A"⟩, false) ∧
    (resultEditResolve ⟨5, "S001", "CS101", "Intro", "A"⟩ [] []
        ⟨"", "", "A"⟩).2 ≠ true := by
  exact ⟨rfl, by decide⟩

/-- C4 (amended): when the edited result's studentNumber matches no
student in the loaded list, the lookup fails silently — no error is
surfaced and the student select keeps its previous (empty) value; the
schema's nonempty-studentId validation is what prevents a submission
with an empty studentId (the submit callback is never invoked). -/
theorem c4_silent_lookup (result : ResultRec) (students : List Student)
    (courses : List Course) (v : ResultFormValues)
    (h : students.find?
      (fun s => decide (s.studentNumber = some result.studentNumber)) = none) :
    (resultEditResolve result students courses v).1.studentId = v.studentId ∧
    (resultEditResolve result students courses v).2 = false ∧
    (∀ (cb : ResultRequestW → Bool) (w : ResultFormValues),
      w.studentId = "" → submitResultForm cb w = none) := by
  refine ⟨?_, rfl, ?_⟩
  · unfold resultEditResolve
    rw [h]
    cases hc : courses.find? (fun c => decide (c.code = result.courseCode)) with
    | none => rfl
    | some c => rfl
  · intro cb w hw
    have hv : validateResultForm w = false := by
      unfold validateResultForm
      rw [hw]
      rfl
    unfold submitResultForm
    rw [hv]
    rfl

/-- Witness for C4: "S001" absent from a one-student list; the course
lookup still succeeds but the student select stays empty, and a form
with empty studentId is never submitted. -/
theorem c4_witness :
    (resultEditResolve ⟨5, "S001", "CS101", "Intro", "A"⟩ [bobS] [cs101]
        ⟨"", "", "A"⟩).1.studentId = "" ∧
    (resultEditResolve ⟨5, "S001", "CS101", "Intro", "A"⟩ [bobS] [cs101]
        ⟨"", "", "A"⟩).2 = false ∧
    submitResultForm (fun _ => true) ⟨"", "10", "A"⟩ = none := by
  have h := c4_silent_lookup ⟨5, "S001", "CS101", "Intro", "A"⟩ [bobS] [cs101]
    ⟨"", "", "A"⟩ (by decide)
  exact ⟨h.1, h.2.1, h.2.2 (fun _ => true) ⟨"", "10", "A"⟩ rfl⟩

/-- C5: both submit handlers build the wire payload with `parseInt` on
the two select strings (and `toISOString` on the registration date),
hand exactly that payload to the injected callback; if the callback
resolves, the form closes, resets all fields and shows the success
toast; if it rejects, the form stays open, keeps its fields and shows
only the generic error toast. -/
theorem c5_submit_conversion (cbR : RegRequestW → Bool) (v : RegFormValues)
    (cbS : ResultRequestW → Bool) (w : ResultFormValues) :
    (regHandleSubmit cbR v).payload =
      ⟨parseIntJS v.studentId, parseIntJS v.courseId,
        v.registrationDate.toISOString⟩ ∧
    (cbR (regPayload v) = true →
      regHandleSubmit cbR v = ⟨regPayload v, true, true, Toast.success⟩) ∧
    (cbR (regPayload v) = false →
      regHandleSubmit cbR v =
        ⟨regPayload v, false, false, Toast.genericError⟩) ∧
    (resultHandleSubmit cbS w).payload =
      ⟨parseIntJS w.studentId, parseIntJS w.courseId, w.grade⟩ ∧
    (cbS (resultPayload w) = true →
      resultHandleSubmit cbS w = ⟨resultPayload w, true, true, Toast.success⟩) ∧
    (cbS (resultPayload w) = false →
      resultHandleSubmit cbS w =
        ⟨resultPayload w, false, false, Toast.genericError⟩) := by
  refine ⟨?_, ?_, ?_, ?_, ?_, ?_⟩
  · unfold regHandleSubmit
    cases h : cbR (regPayload v) <;> rfl
  · intro h
    unfold regHandleSubmit
    rw [h]
    rfl
  · intro h
    unfold regHandleSubmit
    rw [h]
    rfl
  · unfold resultHandleSubmit
    cases h : cbS (resultPayload w) <;> rfl
  · intro h
    unfold resultHandleSubmit
    rw [h]
    rfl
  · intro h
    unfold resultHandleSubmit
    rw [h]
    rfl

/-- Witness for C5 at concrete form values and concrete resolving /
rejecting callbacks. -/
theorem c5_witness :
    regHandleSubmit (fun _ => true)
        ⟨"1", "10", ⟨1705276800000, "2024-01-15T00:00:00.000Z"⟩⟩ =
      ⟨regPayload ⟨"1", "10", ⟨1705276800000, "2024-01-15T00:00:00.000Z"⟩⟩,
        true, true, Toast.success⟩ ∧
    resultHandleSubmit (fun _ => false) ⟨"1", "10", "A"⟩ =
      ⟨resultPayload ⟨"1", "10", "A"⟩, false, false, Toast.genericError⟩ :=
  ⟨(c5_submit_conversion (fun _ => true)
      ⟨"1", "10", ⟨1705276800000, "2024-01-15T00:00:00.000Z"⟩⟩
      (fun _ => false) ⟨"1", "10", "A"⟩).2.1 rfl,
   (c5_submit_conversion (fun _ => true)
      ⟨"1", "10", ⟨1705276800000, "2024-01-15T00:00:00.000Z"⟩⟩
      (fun _ => false) ⟨"1", "10", "A"⟩).2.2.2.2.2 rfl⟩

/-- C6: declining the blocking confirm makes no delete request and
leaves every view's state unchanged; a confirmed successful delete in
the Students view replaces local state by the previous list with
exactly the deleted id removed (an order-preserving sublist keeping
every other record), while Courses, Registrations and Results instead
trigger a whole-collection refetch. -/
theorem c6_delete_handlers :
    (∀ (apiOk : Bool) (l : List Student) (t : Student),
      handleDeleteStudent false apiOk l t = (l, false, none)) ∧
    (∀ (l : List Student) (t : Student),
      handleDeleteStudent true true l t =
        (l.filter (fun s => decide (s.id ≠ t.id)), true, some Toast.success)) ∧
    (∀ (l : List Student) (t : Student),
      List.Sublist (l.filter (fun s => decide (s.id ≠ t.id))) l ∧
      (∀ s ∈ l, s.id ≠ t.id → s ∈ l.filter (fun s => decide (s.id ≠ t.id))) ∧
      (∀ s ∈ l.filter (fun s => decide (s.id ≠ t.id)), s.id ≠ t.id)) ∧
    (∀ apiOk : Bool,
      handleDeleteCourse false apiOk = ⟨false, false, none⟩ ∧
      handleDeleteRegistration false apiOk = ⟨false, false, none⟩ ∧
      handleDeleteResult false apiOk = ⟨false, false, none⟩) ∧
    (handleDeleteCourse true true = ⟨true, true, some Toast.success⟩ ∧
      handleDeleteRegistration true true = ⟨true, true, some Toast.success⟩ ∧
      handleDeleteResult true true = ⟨true, true, some Toast.success⟩) := by
  refine ⟨?_, ?_, ?_, ?_, ?_⟩
  · intro apiOk l t
    rfl
  · intro l t
    rfl
  · intro l t
    refine ⟨List.filter_sublist l, ?_, ?_⟩
    · intro s hs hne
      rw [List.mem_filter]
      exact ⟨hs, by simpa using hne⟩
    · intro s hs
      have hp := (List.mem_filter.mp hs).2
      simpa using hp
  · intro apiOk
    exact ⟨rfl, rfl, rfl⟩
  · exact ⟨rfl, rfl, rfl⟩

/-- Witness for C6: a declined delete leaves a one-student list alone;
a confirmed delete of Alice keeps Bob; a declined course delete makes
no request. -/
theorem c6_witness :
    handleDeleteStudent false true [aliceS] aliceS = ([aliceS], false, none) ∧
    handleDeleteStudent true true [aliceS, bobS] aliceS =
      ([aliceS, bobS].filter (fun s => decide (s.id ≠ aliceS.id)), true,
        some Toast.success) ∧
    bobS ∈ [aliceS, bobS].filter (fun s => decide (s.id ≠ aliceS.id)) ∧
    handleDeleteCourse false true = ⟨false, false, none⟩ :=
  ⟨c6_delete_handlers.1 true [aliceS] aliceS,
   c6_delete_handlers.2.1 [aliceS, bobS] aliceS,
   (c6_delete_handlers.2.2.1 [aliceS, bobS] aliceS).2.1 bobS (by decide)
     (by decide),
   (c6_delete_handlers.2.2.2.1 true).1⟩

/-- C8: the forms' `loadData` is a fan-out/fan-in join — when both the
student and course fetches resolve, both lists are installed and the
selects render with no error; when either fetch rejects, the whole
join rejects, neither partial result is installed (the prior lists
remain) and exactly one generic error notification is shown. -/
theorem c8_fanin_join (sl s0 : List Student) (cl c0 : List Course)
    (sres : Except Unit (List Student)) (cres : Except Unit (List Course)) :
    loadDataJoin (Except.ok sl) (Except.ok cl) s0 c0 = ⟨sl, cl, false, 0⟩ ∧
    ((sres = Except.error () ∨ cres = Except.error ()) →
      loadDataJoin sres cres s0 c0 = ⟨s0, c0, false, 1⟩) := by
  constructor
  · rfl
  · intro h
    cases sres with
    | error e =>
      cases cres with
      | error e2 => rfl
      | ok cl2 => rfl
    | ok sl2 =>
      cases cres with
      | error e2 => rfl
      | ok cl2 =>
        rcases h with h | h <;> simp at h

/-- Witness for C8: a successful join installs both lists; a failed
student fetch keeps the empty prior lists and shows one error toast. -/
theorem c8_witness :
    loadDataJoin (Except.ok [aliceS]) (Except.ok [cs101]) [] [] =
      ⟨[aliceS], [cs101], false, 0⟩ ∧
    loadDataJoin (Except.error ()) (Except.ok [cs101]) [] [] =
      ⟨[], [], false, 1⟩ :=
  ⟨(c8_fanin_join [aliceS] [] [cs101] [] (Except.error ())
      (Except.ok [cs101])).1,
   (c8_fanin_join [aliceS] [] [cs101] [] (Except.error ())
      (Except.ok [cs101])).2 (Or.inl rfl)⟩

end UCMS
